import Mathlib

/-!
Shallow embedding of the request handlers in apps/phonebook/views.py of the
mozillians repository, together with proofs of the behavioural properties
the specification states about them.

The handlers are a thin orchestration layer over Django: each one maps an
incoming request (method, parameters, authenticated identity) to a response
(rendered page, redirect, forbidden, not-found).  We embed each handler as a
pure Lean function over explicit inputs; collaborator results (form
validation outcomes, ORM query results) are passed in as data, and side
effects whose ordering the spec constrains (task enqueue, anonymize, logout,
saves) are returned as explicit effect traces.
-/

namespace Phonebook

/-- HTTP request method. -/
inductive Method where
  | GET
  | POST
deriving DecidableEq, Repr

/-- A user profile (apps.users.models.UserProfile), restricted to the fields
that the handlers in views.py read: the primary key, the vouched and
completeness flags, and the naming/location fields used by list_country. -/
structure UserProfile where
  id : Nat
  is_vouched : Bool
  is_complete : Bool
  full_name : String
  country : String
  city : String
  region : String
deriving DecidableEq, Repr

/-- A Django auth User together with its one-to-one UserProfile
(user.get_profile() and request.user.userprofile denote the same record). -/
structure User where
  id : Nat
  username : String
  profile : UserProfile
deriving DecidableEq, Repr

/-- The response kinds produced by these handlers.

  * `render template status` — django.shortcuts.render;
  * `redirect url` — HttpResponseRedirect / django.shortcuts.redirect;
  * `forbidden msg` — an instantiated HttpResponseForbidden(msg);
  * `forbiddenClass` — the Python expression `return HttpResponseForbidden`
    (views.py line 234) returns the class object itself, without calling it:
    the value returned is not an HttpResponse instance, so we model it as a
    constructor distinct from every instantiated response;
  * `notFound` — raise Http404 / get_object_or_404 failure;
  * `loginRedirect` — the rejection issued by @login_required for an
    unauthenticated request;
  * `methodNotAllowed` — the rejection issued by @require_POST;
  * `serverError` — an uncaught Python exception (HTTP 500). -/
inductive Response where
  | render (template : String) (status : Nat)
  | redirect (url : String)
  | forbidden (msg : String)
  | forbiddenClass
  | notFound
  | loginRedirect
  | methodNotAllowed
  | serverError
deriving DecidableEq, Repr

/-- funfactory.urlresolvers.reverse: the URL of a named view with positional
arguments.  URL configuration is outside this file; any concrete injective
encoding of (viewname, args) serves the embedding. -/
def reverse (viewname : String) (args : List String) : String :=
  args.foldl (fun acc a => acc ++ "/" ++ a) ("/" ++ viewname)

/-- The request data the embedded handlers inspect: the method, the
authenticated identity (`none` when unauthenticated), and the AJAX flag
read by the search view. -/
structure Request where
  method : Method
  user : Option User
  is_ajax : Bool
deriving DecidableEq, Repr

/-- The vouch_required decorator (views.py lines 31-43).  @login_required
rejects an unauthenticated request before the wrapped body runs (modelled
as `loginRedirect`); an authenticated caller whose profile is not vouched
gets HttpResponseForbidden with a localized message (a warning is logged);
a vouched caller has the call delegated to `f` unchanged, extra arguments
included. -/
def vouch_required {α : Type} (f : Request → α → Response) : Request → α → Response :=
  fun request args =>
    match request.user with
    | none => Response.loginRedirect
    | some u =>
      if u.profile.is_vouched then f request args
      else Response.forbidden "You must be vouched to do this."

/-- The require_POST decorator: rejects any non-POST request with
HttpResponseNotAllowed before the wrapped body runs. -/
def require_POST {α : Type} (f : Request → α → Response) : Request → α → Response :=
  fun request args =>
    if request.method = Method.POST then f request args
    else Response.methodNotAllowed

/-- get_object_or_404(User, username=username): the first user whose
username matches, if any. -/
def getUserOr404 (db : List User) (username : String) : Option User :=
  db.find? (fun u => u.username == username)

/-- The profile view (views.py lines 58-77), after @login_required has
admitted the authenticated caller.  Resolves the target by username (404 on
absence), raises Http404 when the target profile is incomplete, returns
HttpResponseForbidden when the caller is neither vouched nor the target,
and otherwise renders the profile page (the vouch form placed in the
template context does not change the response kind and is elided). -/
def profile (db : List User) (caller : User) (username : String) : Response :=
  match getUserOr404 db username with
  | none => Response.notFound
  | some user =>
    if user.profile.is_complete = false then Response.notFound
    else if caller.profile.is_vouched = false ∧ caller.id ≠ user.id then
      Response.forbidden "You must be vouched to do this."
    else
      Response.render "phonebook/profile.html" 200

/- Sample data shared by the concrete witnesses below. -/

/-- A vouched, complete profile located in Reno, US. -/
def vouchedProfile : UserProfile :=
  { id := 11, is_vouched := true, is_complete := true,
    full_name := "Alice Adams", country := "us", city := "Reno", region := "Nevada" }

/-- An unvouched but complete profile, also in Reno (lowercase city). -/
def unvouchedProfile : UserProfile :=
  { id := 12, is_vouched := false, is_complete := true,
    full_name := "Bob Brown", country := "us", city := "reno", region := "nv" }

/-- An incomplete profile. -/
def incompleteProfile : UserProfile :=
  { id := 13, is_vouched := false, is_complete := false,
    full_name := "", country := "fr", city := "", region := "" }

/-- A vouched user. -/
def alice : User := { id := 1, username := "alice", profile := vouchedProfile }

/-- An authenticated but unvouched user. -/
def bob : User := { id := 2, username := "bob", profile := unvouchedProfile }

/-- A user whose profile is incomplete. -/
def carol : User := { id := 3, username := "carol", profile := incompleteProfile }

/-- A small user table. -/
def sampleDb : List User := [alice, bob, carol]

/-- A no-op probe handler, used to observe whether a wrapped body runs. -/
def probeA : Request → Unit → Response := fun _ _ => Response.render "probeA" 200

/-- A second probe handler, distinguishable from the first. -/
def probeB : Request → Unit → Response := fun _ _ => Response.render "probeB" 200

/-- An unauthenticated GET request. -/
def reqUnauthenticated : Request := { method := Method.GET, user := none, is_ajax := false }

/-- C2: for every authenticated request to the profile handler whose target
username resolves to an existing user with an incomplete profile, the
response is Not Found, for every caller identity (unvouched callers and the
profile owner included). -/
theorem profile_incomplete_404 (db : List User) (caller : User) (username : String)
    (user : User) (hfind : getUserOr404 db username = some user)
    (hinc : user.profile.is_complete = false) :
    profile db caller username = Response.notFound := by
  unfold profile
  rw [hfind]
  simp [hinc]

/-- Witness for C2: carol's profile is incomplete, so even carol herself
requesting the page gets Not Found. -/
theorem profile_incomplete_404_witness :
    profile sampleDb carol "carol" = Response.notFound :=
  profile_incomplete_404 sampleDb carol "carol" carol (by decide) (by decide)

/-- C3: for every authenticated request to the profile handler whose target
exists with a complete profile, an unvouched caller who is not the target
gets Forbidden. -/
theorem profile_unvouched_forbidden (db : List User) (caller : User) (username : String)
    (user : User) (hfind : getUserOr404 db username = some user)
    (hcomp : user.profile.is_complete = true)
    (hunv : caller.profile.is_vouched = false)
    (hne : caller.id ≠ user.id) :
    profile db caller username = Response.forbidden "You must be vouched to do this." := by
  unfold profile
  rw [hfind]
  simp [hcomp, hunv, hne]

/-- Witness for C3: unvouched bob viewing alice's complete profile is
forbidden. -/
theorem profile_unvouched_forbidden_witness :
    profile sampleDb bob "alice" = Response.forbidden "You must be vouched to do this." :=
  profile_unvouched_forbidden sampleDb bob "alice" alice
    (by decide) (by decide) (by decide) (by decide)

/-- C4: for every handler f wrapped by vouch_required, an unauthenticated
request gets the authentication-gate rejection and an authenticated but
unvouched request gets the 403 — in both cases the result is independent of
the wrapped body, so the body never runs — while an authenticated vouched
request returns exactly f applied to the same request and arguments. -/
theorem vouch_required_gate {α : Type} (f g : Request → α → Response)
    (req : Request) (args : α) :
    (req.user = none →
       vouch_required f req args = vouch_required g req args ∧
       vouch_required f req args = Response.loginRedirect) ∧
    (∀ u, req.user = some u → u.profile.is_vouched = false →
       vouch_required f req args = vouch_required g req args ∧
       vouch_required f req args = Response.forbidden "You must be vouched to do this.") ∧
    (∀ u, req.user = some u → u.profile.is_vouched = true →
       vouch_required f req args = f req args) := by
  refine ⟨?_, ?_, ?_⟩ <;> intros <;> simp_all [vouch_required]

/-- Witness for C4: on an unauthenticated request the two distinct probe
handlers give the same response, the login rejection. -/
theorem vouch_required_gate_witness :
    vouch_required probeA reqUnauthenticated () = vouch_required probeB reqUnauthenticated () ∧
    vouch_required probeA reqUnauthenticated () = Response.loginRedirect :=
  (vouch_required_gate probeA probeB reqUnauthenticated ()).1 rfl

/-- A Django form as the edit_profile view observes it: whether it was built
bound (a non-empty data dict was passed, i.e. `request.POST or None` was not
None) and whether validation of the bound data produces field errors.  An
unbound form is never valid and reports no errors. -/
structure DjangoForm where
  bound : Bool
  hasFieldErrors : Bool
deriving DecidableEq, Repr

/-- form.is_valid(): bound and free of errors. -/
def DjangoForm.is_valid (f : DjangoForm) : Bool :=
  f.bound && !f.hasFieldErrors

/-- Whether form.errors is non-empty: an unbound form has an empty errors
dict; a bound form has errors exactly when validation produced some. -/
def DjangoForm.errorsNonempty (f : DjangoForm) : Bool :=
  f.bound && f.hasFieldErrors

/-- The inputs the edit_profile view branches on: the method, whether
request.POST is non-empty (so `request.POST or None` passes data and the
forms are bound), the validation outcomes of the two bound forms, and the
username after a successful save (the redirect target). -/
structure EditProfileInput where
  method : Method
  postNonEmpty : Bool
  userFormHasErrors : Bool
  profileFormHasErrors : Bool
  username : String
deriving DecidableEq, Repr

/-- The persisted writes of edit_profile. -/
inductive EditEffect where
  | saveUser
  | saveProfile
deriving DecidableEq, Repr

/-- The edit_profile view (views.py lines 80-121), after @login_required.
Both forms are constructed from `request.POST or None`, so an empty POST
body yields unbound forms.  On POST with both forms valid the two saves run
and the response redirects to the profile URL of the (possibly renamed)
user; otherwise the edit page renders, with status 400 when either form has
errors and 200 otherwise.  Template context is elided. -/
def edit_profile (inp : EditProfileInput) : List EditEffect × Response :=
  let user_form : DjangoForm := { bound := inp.postNonEmpty, hasFieldErrors := inp.userFormHasErrors }
  let profile_form : DjangoForm := { bound := inp.postNonEmpty, hasFieldErrors := inp.profileFormHasErrors }
  if inp.method = Method.POST ∧ user_form.is_valid ∧ profile_form.is_valid then
    ([EditEffect.saveUser, EditEffect.saveProfile],
     Response.redirect (reverse "profile" [inp.username]))
  else
    ([], Response.render "phonebook/edit_profile.html"
          (if profile_form.errorsNonempty || user_form.errorsNonempty then 400 else 200))

/-- C7: on an authenticated POST with bound forms, a validation error in
either form re-renders the edit page with status 400 and persists nothing,
while two valid forms save and redirect to the profile URL of the caller
(never a 200 render). -/
theorem edit_profile_validation (inp : EditProfileInput)
    (hm : inp.method = Method.POST) (hb : inp.postNonEmpty = true) :
    ((inp.userFormHasErrors = true ∨ inp.profileFormHasErrors = true) →
       edit_profile inp = ([], Response.render "phonebook/edit_profile.html" 400)) ∧
    (inp.userFormHasErrors = false → inp.profileFormHasErrors = false →
       edit_profile inp =
         ([EditEffect.saveUser, EditEffect.saveProfile],
          Response.redirect (reverse "profile" [inp.username]))) := by
  constructor
  · rintro (h | h) <;>
      simp [edit_profile, DjangoForm.is_valid, DjangoForm.errorsNonempty, hm, hb, h]
  · intro h1 h2
    simp [edit_profile, DjangoForm.is_valid, DjangoForm.errorsNonempty, hm, hb, h1, h2]

/-- Witness for C7: a POST whose profile form has an error renders with
status 400. -/
theorem edit_profile_validation_witness :
    edit_profile { method := Method.POST, postNonEmpty := true,
                   userFormHasErrors := false, profileFormHasErrors := true,
                   username := "alice" }
      = ([], Response.render "phonebook/edit_profile.html" 400) :=
  (edit_profile_validation
      { method := Method.POST, postNonEmpty := true,
        userFormHasErrors := false, profileFormHasErrors := true,
        username := "alice" } rfl rfl).1 (Or.inr rfl)

/-- C10: an authenticated POST with an empty body yields unbound forms:
nothing is saved, and the page renders with status 200 — not 400 — because
unbound forms are invalid yet report no errors. -/
theorem edit_profile_empty_post (inp : EditProfileInput)
    (hm : inp.method = Method.POST) (hb : inp.postNonEmpty = false) :
    edit_profile inp = ([], Response.render "phonebook/edit_profile.html" 200) := by
  simp [edit_profile, DjangoForm.is_valid, DjangoForm.errorsNonempty, hm, hb]

/-- Witness for C10: an empty POST body renders with status 200 and an
empty effect trace, whatever the validation outcomes would have been. -/
theorem edit_profile_empty_post_witness :
    edit_profile { method := Method.POST, postNonEmpty := false,
                   userFormHasErrors := true, profileFormHasErrors := true,
                   username := "alice" }
      = ([], Response.render "phonebook/edit_profile.html" 200) :=
  edit_profile_empty_post
    { method := Method.POST, postNonEmpty := false,
      userFormHasErrors := true, profileFormHasErrors := true,
      username := "alice" } rfl rfl

/-- The observable side effects of the delete view, in execution order. -/
inductive DeleteEffect where
  | enqueueRemoveFromBasket (profileId : Nat)
  | anonymize (profileId : Nat)
  | logDeletion (userId : Nat)
  | logoutSession
deriving DecidableEq, Repr

/-- The delete view (views.py lines 134-143), after @login_required and
@require_POST: enqueue the remove_from_basket task keyed by the profile id,
anonymize the profile, log the deletion with the user id, terminate the
session, and redirect home. -/
def delete (caller : User) : List DeleteEffect × Response :=
  ([DeleteEffect.enqueueRemoveFromBasket caller.profile.id,
    DeleteEffect.anonymize caller.profile.id,
    DeleteEffect.logDeletion caller.id,
    DeleteEffect.logoutSession],
   Response.redirect (reverse "home" []))

/-- C8: delete performs, in order, exactly: enqueue the basket-removal task
keyed by the profile id (once per invocation), anonymize, log, logout; the
enqueue sits strictly before the anonymize (positions 0 and 1), and the
response redirects home. -/
theorem delete_order (caller : User) :
    (delete caller).1 =
      [DeleteEffect.enqueueRemoveFromBasket caller.profile.id,
       DeleteEffect.anonymize caller.profile.id,
       DeleteEffect.logDeletion caller.id,
       DeleteEffect.logoutSession] ∧
    (delete caller).1.count (DeleteEffect.enqueueRemoveFromBasket caller.profile.id) = 1 ∧
    (delete caller).1.get? 0 = some (DeleteEffect.enqueueRemoveFromBasket caller.profile.id) ∧
    (delete caller).1.get? 1 = some (DeleteEffect.anonymize caller.profile.id) ∧
    (delete caller).2 = Response.redirect (reverse "home" []) := by
  refine ⟨rfl, ?_, rfl, rfl, rfl⟩
  simp [delete, List.count_cons]

/-- Python str.lower / the lowercasing underlying the ORM iexact lookup,
modelled character-wise over the string contents (the country codes and the
city and region names the view compares are plain text). -/
def lowerStr (s : String) : String := ⟨s.data.map Char.toLower⟩

/-- The list_country view (views.py lines 237-252), after the vouch gate.
Lowercases the country code, keeps the profiles with a non-empty full name
that are vouched and whose country equals the lowercased code, then narrows
by case-insensitive city and region matches when those arguments are given
(iexact is modelled as equality of lowercasings).  Returns the people
queryset together with the rendered listing response. -/
def list_country (db : List UserProfile) (country : String)
    (region : Option String) (city : Option String) : List UserProfile × Response :=
  let c := lowerStr country
  let q0 := db.filter (fun p => p.full_name ≠ "")
  let q1 := q0.filter (fun p => p.is_vouched = true)
  let q2 := q1.filter (fun p => p.country = c)
  let q3 := match city with
            | some ct => q2.filter (fun p => lowerStr p.city = lowerStr ct)
            | none => q2
  let q4 := match region with
            | some r => q3.filter (fun p => lowerStr p.region = lowerStr r)
            | none => q3
  (q4, Response.render "phonebook/location-list.html" 200)

/-- C9: the people listing of list_country contains exactly the profiles of
the table that are vouched, have a non-empty full name, match the
lowercased country code, and — when city or region arguments are given —
match those case-insensitively. -/
theorem list_country_members (db : List UserProfile) (country : String)
    (region city : Option String) (p : UserProfile) :
    p ∈ (list_country db country region city).1 ↔
      p ∈ db ∧ p.full_name ≠ "" ∧ p.is_vouched = true ∧ p.country = lowerStr country ∧
      (∀ ct, city = some ct → lowerStr p.city = lowerStr ct) ∧
      (∀ r, region = some r → lowerStr p.region = lowerStr r) := by
  cases city <;> cases region <;>
    simp [list_country, List.mem_filter] <;> tauto

/-- Witness for C9: with country "US" and city "Reno", the vouched Reno
profile is listed (city matching is case-insensitive, country is matched
against the lowercased code). -/
theorem list_country_members_witness :
    vouchedProfile ∈
      (list_country [vouchedProfile, unvouchedProfile, incompleteProfile]
        "US" none (some "Reno")).1 :=
  (list_country_members [vouchedProfile, unvouchedProfile, incompleteProfile]
      "US" none (some "Reno") vouchedProfile).mpr
    (by
      refine ⟨by simp, by decide, by decide, by decide, ?_, ?_⟩
      · intro ct hct
        cases hct
        decide
      · intro r hr
        cases hr)

/-- The exceptions of django.core.paginator that the search view catches. -/
inductive PageError where
  | notAnInteger
  | emptyPage
deriving DecidableEq, Repr

/-- Paginator.num_pages with the default orphans=0 and
allow_empty_first_page=True: ceil(max(1, count) / per_page). -/
def num_pages (count per_page : Nat) : Nat :=
  (max 1 count + per_page - 1) / per_page

/-- Paginator.page: a page argument that cannot be converted to an integer
(modelled as `none`) raises PageNotAnInteger; a number below 1 or above
num_pages raises EmptyPage; otherwise page n holds the object slice
[(n-1)*per_page, n*per_page) and carries its number. -/
def paginatorPage (objects : List User) (per_page : Nat) (number : Option Int) :
    Except PageError (List User × Nat) :=
  match number with
  | none => Except.error PageError.notAnInteger
  | some n =>
    if n < 1 then Except.error PageError.emptyPage
    else if (num_pages objects.length per_page : Int) < n then
      Except.error PageError.emptyPage
    else
      Except.ok ((objects.drop ((n.toNat - 1) * per_page)).take per_page, n.toNat)

/-- The try/except around paginator.page in search (views.py lines 170-175):
PageNotAnInteger falls back to page 1 and EmptyPage to the last page.  The
getD defaults stand for the fallback call itself failing, which cannot
happen for a positive per-page limit. -/
def searchPeople (profiles : List User) (limit : Nat) (page : Option Int) :
    List User × Nat :=
  match paginatorPage profiles limit page with
  | Except.ok r => r
  | Except.error PageError.notAnInteger =>
      (paginatorPage profiles limit (some 1)).toOption.getD ([], 1)
  | Except.error PageError.emptyPage =>
      let np := num_pages profiles.length limit
      (paginatorPage profiles limit (some (np : Int))).toOption.getD ([], np)

/-- The inputs the search view branches on: the validity of the GET form,
the profile rows returned by UserProfile.search (each with its user), the
group rows returned by Group.search, the per-page limit from the form, and
the page parameter (`none` for a value not convertible to an integer). -/
structure SearchInput where
  formValid : Bool
  profiles : List User
  groups : List String
  limit : Nat
  page : Option Int
deriving DecidableEq, Repr

/-- The search view body (views.py lines 146-195), after the vouch gate.
On a valid form the profile results are paginated with the clamping
fallbacks of searchPeople; when exactly one profile matches and the group
results are empty, the view returns early with a redirect to that profile
(indexing people[0] on an empty page would raise, modelled as
serverError).  In every other case — invalid form included — the listing
template renders, a fragment for an AJAX request and the full page
otherwise.  Template context is elided. -/
def search_body (req : Request) (inp : SearchInput) : Response :=
  let earlyRedirect : Option Response :=
    if inp.formValid then
      let people := searchPeople inp.profiles inp.limit inp.page
      if inp.profiles.length = 1 ∧ inp.groups = [] then
        some (match people.1.head? with
              | some p => Response.redirect (reverse "profile" [p.username])
              | none => Response.serverError)
      else none
    else none
  match earlyRedirect with
  | some r => r
  | none =>
    if req.is_ajax then Response.render "search_ajax.html" 200
    else Response.render "phonebook/search.html" 200

/-- The search view as routed: the body behind vouch_required. -/
def search : Request → SearchInput → Response :=
  vouch_required search_body

/-- A positive per-page limit gives at least one page. -/
lemma num_pages_pos (count per_page : Nat) (h : 0 < per_page) :
    0 < num_pages count per_page := by
  unfold num_pages
  have h1 : 1 ≤ (max 1 count + per_page - 1) / per_page :=
    (Nat.one_le_div_iff h).mpr (by omega)
  omega

/-- One object paginates to a single page. -/
lemma num_pages_one (per_page : Nat) (h : 0 < per_page) :
    num_pages 1 per_page = 1 := by
  unfold num_pages
  have heq : max 1 1 + per_page - 1 = per_page := by omega
  rw [heq, Nat.div_self h]

/-- With a positive limit, a single-row result set yields page 1 holding
that row, whatever the page parameter was. -/
lemma searchPeople_singleton (u0 : User) (limit : Nat) (h : 0 < limit)
    (page : Option Int) : searchPeople [u0] limit page = ([u0], 1) := by
  have hnp : num_pages 1 limit = 1 := num_pages_one limit h
  have htake : List.take limit [u0] = [u0] :=
    List.take_of_length_le (by simpa using h)
  cases page with
  | none =>
    simp [searchPeople, paginatorPage, Except.toOption, hnp, htake]
  | some n =>
    rcases lt_trichotomy n 1 with h1 | h1 | h1
    · simp [searchPeople, paginatorPage, Except.toOption, h1, hnp, htake]
    · subst h1
      simp [searchPeople, paginatorPage, Except.toOption, hnp, htake]
    · simp [searchPeople, paginatorPage, Except.toOption, h1, hnp, htake,
            show ¬ n < 1 by omega]

/-- C5: a vouched search request with a valid form, a positive limit,
exactly one matching profile and no matching groups redirects to that
profile page and never renders a listing page, for every page parameter. -/
theorem search_single_result_redirects (req : Request) (caller u0 : User)
    (inp : SearchInput)
    (hauth : req.user = some caller) (hvouch : caller.profile.is_vouched = true)
    (hform : inp.formValid = true) (hlim : 0 < inp.limit)
    (hprof : inp.profiles = [u0]) (hgroups : inp.groups = []) :
    search req inp = Response.redirect (reverse "profile" [u0.username]) ∧
    ∀ t s, search req inp ≠ Response.render t s := by
  have hbody : search req inp = Response.redirect (reverse "profile" [u0.username]) := by
    simp [search, vouch_required, hauth, hvouch, search_body, hform, hprof, hgroups,
          searchPeople_singleton u0 inp.limit hlim]
  refine ⟨hbody, ?_⟩
  intro t s hcontra
  rw [hbody] at hcontra
  cases hcontra

/-- Witness for C5: a search by alice matching only bob redirects to the
profile page of bob, here with a non-integer page parameter. -/
theorem search_single_result_redirects_witness :
    search { method := Method.GET, user := some alice, is_ajax := false }
        { formValid := true, profiles := [bob], groups := [], limit := 20, page := none }
      = Response.redirect (reverse "profile" [bob.username]) :=
  (search_single_result_redirects
      { method := Method.GET, user := some alice, is_ajax := false } alice bob
      { formValid := true, profiles := [bob], groups := [], limit := 20, page := none }
      rfl rfl rfl (by decide) rfl rfl).1

/-- C6: for a vouched search request with a valid form and positive limit,
a non-integer page parameter yields page 1 (the first limit-sized slice of
the results), an integer page beyond the last page yields the last page,
and the response is always a redirect or a 200 render — never an error. -/
theorem search_page_fallback (req : Request) (caller : User) (inp : SearchInput)
    (hauth : req.user = some caller) (hvouch : caller.profile.is_vouched = true)
    (hform : inp.formValid = true) (hlim : 0 < inp.limit) :
    (inp.page = none →
       searchPeople inp.profiles inp.limit inp.page
         = (inp.profiles.take inp.limit, 1)) ∧
    (∀ n : Int, inp.page = some n →
       (num_pages inp.profiles.length inp.limit : Int) < n →
       (searchPeople inp.profiles inp.limit inp.page).2
         = num_pages inp.profiles.length inp.limit) ∧
    ((∃ url, search req inp = Response.redirect url) ∨
     (∃ t, search req inp = Response.render t 200)) := by
  have hnp : 0 < num_pages inp.profiles.length inp.limit :=
    num_pages_pos inp.profiles.length inp.limit hlim
  refine ⟨?_, ?_, ?_⟩
  · intro hpage
    rw [hpage]
    simp [searchPeople, paginatorPage, Except.toOption,
          show ¬ ((num_pages inp.profiles.length inp.limit : Int) < 1) by omega]
  · intro n hpage hbeyond
    rw [hpage]
    have hn1 : ¬ n < 1 := by omega
    simp only [searchPeople, paginatorPage, if_pos hbeyond, if_neg hn1]
    simp [Except.toOption,
          show ¬ ((num_pages inp.profiles.length inp.limit : Int) < 1) by omega,
          show ¬ ((num_pages inp.profiles.length inp.limit : Int)
                    < (num_pages inp.profiles.length inp.limit : Int)) by omega]
  · have hgate : search req inp = search_body req inp := by
      simp [search, vouch_required, hauth, hvouch]
    by_cases hc : inp.profiles.length = 1 ∧ inp.groups = []
    · obtain ⟨u0, hu0⟩ := List.length_eq_one.mp hc.1
      left
      refine ⟨reverse "profile" [u0.username], ?_⟩
      rw [hgate]
      simp [search_body, hform, hu0, hc.2, searchPeople_singleton u0 inp.limit hlim]
    · right
      by_cases ha : req.is_ajax
      · exact ⟨"search_ajax.html", by rw [hgate]; simp [search_body, hform, hc, ha]⟩
      · exact ⟨"phonebook/search.html", by rw [hgate]; simp [search_body, hform, hc, ha]⟩

/-- Witness for C6: alice searches with a non-integer page parameter over
two matching profiles with limit 1; the result is page 1 holding only the
first profile, and a page beyond the last clamps to the last page. -/
theorem search_page_fallback_witness :
    searchPeople [alice, bob] 1 none = ([alice], 1) ∧
    (searchPeople [alice, bob] 1 (some 99)).2 = num_pages 2 1 :=
  ⟨by
    have h := (search_page_fallback
        { method := Method.GET, user := some alice, is_ajax := false } alice
        { formValid := true, profiles := [alice, bob], groups := ["g"], limit := 1, page := none }
        rfl rfl rfl (by decide)).1 rfl
    simpa using h,
   by
    have h := ((search_page_fallback
        { method := Method.GET, user := some alice, is_ajax := false } alice
        { formValid := true, profiles := [alice, bob], groups := ["g"], limit := 1, page := some 99 }
        rfl rfl rfl (by decide)).2).1 99 rfl (by decide)
    simpa using h⟩

/-- The inputs the vouch view branches on: the user table, the validity of
the posted VouchForm, and the cleaned vouchee primary key. -/
structure VouchInput where
  db : List User
  formValid : Bool
  voucheePk : Nat
deriving DecidableEq, Repr

/-- The vouch view body (views.py lines 218-234), inside @vouch_required
and @require_POST.  On a valid form: load the vouchee profile by primary
key (an absent key would raise DoesNotExist, modelled as serverError),
apply the vouch, and redirect to the vouchee profile page.  On an invalid
form, line 234 reads `return HttpResponseForbidden` — the class object
itself, with no call parentheses — so the value returned is not an
instantiated response: modelled as the distinct constructor
Response.forbiddenClass.  The vouch mutation and the flash message are
elided from the response model. -/
def vouch_body (_req : Request) (inp : VouchInput) : Response :=
  if inp.formValid then
    match inp.db.find? (fun u => u.profile.id == inp.voucheePk) with
    | some vouchee => Response.redirect (reverse "profile" [vouchee.username])
    | none => Response.serverError
  else
    Response.forbiddenClass

/-- The vouch view as routed: the body behind vouch_required and
require_POST. -/
def vouch : Request → VouchInput → Response :=
  vouch_required (require_POST vouch_body)

/-- A POST request from the vouched user alice. -/
def reqAlicePost : Request := { method := Method.POST, user := some alice, is_ajax := false }

/-- C1 is false of the code: a POST that passes the vouch gate but carries
an invalid form returns the uninstantiated HttpResponseForbidden class
object (Response.forbiddenClass), which differs from every instantiated
forbidden response, so no instantiated 403 response is produced. -/
theorem vouch_invalid_form_not_instantiated :
    vouch reqAlicePost { db := sampleDb, formValid := false, voucheePk := 12 }
      = Response.forbiddenClass ∧
    ∀ msg, Response.forbiddenClass ≠ Response.forbidden msg := by
  refine ⟨rfl, ?_⟩
  intro msg h
  cases h

end Phonebook
